import Mathlib

/-!
Verification development for the customer-service-agent repository.

The repository is a Next.js UI around a multi-agent chat system.  Two API
route handlers carry the logic verified here:

* `ui/api/chat/route.ts` (namespace `ApiChat` below): an airline demo with
  `faq_lookup_tool`, `route_to_agent` and `agent_respond`.
* `ui/app/api/chat/route.ts` (namespace `AppApiChat` below): the UK Sports
  route with input validation, a backend call and a keyword fallback table.

The Python backend (orchestrator `handleTurn`, grounding engine, search
client) is not part of this repository snapshot; where a claim depends on
it, the component is modelled from the spec and marked as such.
-/

/-- ASCII lowercasing of a character list; models JavaScript
`String.prototype.toLowerCase` on the ASCII texts handled here. -/
def lowerChars (cs : List Char) : List Char :=
  cs.map Char.toLower

/-- ASCII lowercasing of a string. -/
def lowerStr (s : String) : String :=
  ⟨lowerChars s.data⟩

/-- Here `startsWithChars pat cs` is true when `pat` is an initial segment of `cs`. -/
def startsWithChars : List Char → List Char → Bool
  | [], _ => true
  | _ :: _, [] => false
  | c :: cs, d :: ds => c = d && startsWithChars cs ds

/-- Here `hasSubChars pat cs` is true when `pat` occurs contiguously in `cs`. -/
def hasSubChars (pat : List Char) : List Char → Bool
  | [] => startsWithChars pat []
  | d :: ds => startsWithChars pat (d :: ds) || hasSubChars pat ds

/-- The test `strContains s pat` models JavaScript `s.includes(pat)`. -/
def strContains (s pat : String) : Bool :=
  hasSubChars pat.data s.data

namespace ApiChat

/-! Embedding of `ui/api/chat/route.ts` (the airline demo route). -/

/-- The registered agent names (`AGENT_LIST` in the source). -/
def AGENT_LIST : List String :=
  ["Triage Agent", "FAQ Agent", "Seat Booking Agent",
   "Flight Status Agent", "Cancellation Agent"]

/-- The generic clarifying prompt `faq_lookup_tool` falls back to. -/
def genericFaqPrompt : String :=
  "I\x27m here to help with airline-related questions. Could you please be more specific about what you\x27d like to know?"

/-- Function `faq_lookup_tool` from the source: keyword lookup over the lowercased
question. -/
def faq_lookup_tool (question : String) : String :=
  let q := lowerStr question
  if strContains q "bag" || strContains q "baggage" || strContains q "luggage" then
    if strContains q "fee" || strContains q "cost" || strContains q "charge" then
      "Overweight bag fee is $75. Additional checked bags are $35 each."
    else
      "You are allowed to bring one carry-on bag (22x14x9 inches) and one checked bag (up to 50 lbs) for free. Overweight fees are $75."
  else if strContains q "seat" || strContains q "plane" then
    "There are 120 seats on the plane: 22 business class and 98 economy seats. Exit rows are 4 and 16, Economy Plus is rows 5-8."
  else if strContains q "wifi" || strContains q "internet" then
    "We have free wifi on the plane. Connect to \x27Airline-Wifi\x27 network. No password required."
  else
    genericFaqPrompt

/-- Function `route_to_agent` from the source: keyword routing from the triage agent,
and hand-back keywords from every other agent. -/
def route_to_agent (userMessage currentAgent : String) : String :=
  if currentAgent = "Triage Agent" then
    let message := lowerStr userMessage
    if strContains message "seat" then "Seat Booking Agent"
    else if strContains message "status" || strContains message "flight" then "Flight Status Agent"
    else if strContains message "cancel" then "Cancellation Agent"
    else if strContains message "faq" || strContains message "question" then "FAQ Agent"
    else "FAQ Agent"
  else if strContains (lowerStr userMessage) "transfer"
       || strContains (lowerStr userMessage) "triage" then
    "Triage Agent"
  else
    currentAgent

/-- The handoff targets each agent declares in its instruction text
(`AGENT_PROMPTS` in the source): the Triage Agent may delegate to the four
specialists, and every specialist declares a transfer back to the triage
agent. -/
def declared_handoffs (agent : String) : List String :=
  if agent = "Triage Agent" then
    ["FAQ Agent", "Seat Booking Agent", "Flight Status Agent", "Cancellation Agent"]
  else
    ["Triage Agent"]

/-- The ordered topic-rule table that `route_to_agent` implements for the
triage agent: keyword patterns checked in source order, each with its target
agent. -/
def TRIAGE_RULES : List (List String × String) :=
  [(["seat"], "Seat Booking Agent"),
   (["status", "flight"], "Flight Status Agent"),
   (["cancel"], "Cancellation Agent"),
   (["faq", "question"], "FAQ Agent")]

/-- A rule matches when any of its keywords occurs in the (already
lowercased) message. -/
def ruleMatches (message : String) (rule : List String × String) : Bool :=
  rule.1.any (fun kw => strContains message kw)

/-- First-match-wins evaluation of the rule table, following the wording of the spec
for the routing design (ordered rule table, first match wins). -/
def firstRuleTarget (message : String) : Option String :=
  (TRIAGE_RULES.find? (ruleMatches message)).map Prod.snd

/-- The per-agent instruction text (`AGENT_PROMPTS` in the source),
looked up by agent name. -/
def AGENT_PROMPTS (agent : String) : Option String :=
  if agent = "Triage Agent" then
    some "You are a helpful triaging agent for an airline. You can delegate questions to other appropriate agents: FAQ, Seat Booking, Flight Status, or Cancellation. If you are unsure, ask clarifying questions."
  else if agent = "FAQ Agent" then
    some "You are an FAQ agent. Answer questions about the airline using your knowledge. If you cannot answer, transfer to the triage agent."
  else if agent = "Seat Booking Agent" then
    some "You are a seat booking agent. Help the customer update their seat. Ask for their confirmation number and desired seat if not provided. If the question is not about seat booking, transfer to the triage agent."
  else if agent = "Flight Status Agent" then
    some "You are a flight status agent. Help customers check flight status. If the question is not about flight status, transfer to the triage agent."
  else if agent = "Cancellation Agent" then
    some "You are a cancellation agent. Help the customer cancel their flight. Ask for confirmation and flight number if not provided. If the question is not about cancellation, transfer to the triage agent."
  else
    none

/-- The prompt string sent to the model, as built in the source. -/
def builtPrompt (agentName userMessage : String) : String :=
  ((AGENT_PROMPTS agentName).getD "") ++ "\n\nUser: " ++ userMessage ++ "\n\nAgent:"

/-- Outcome of `agent_respond`: the reply text, and whether the language
model was consulted to produce it. -/
structure AgentResult where
  reply : String
  llmCalled : Bool
  deriving DecidableEq

/-- The fixed apology returned when the language-model call throws. -/
def apologyReply : String :=
  "I apologize, but I\x27m having trouble processing your request right now. Please try again later."

/-- Function `agent_respond` from the source.  The Gemini call is embedded as the
function argument `llm` from the built prompt to either a reply
(`Except.ok`) or a thrown error (`Except.error`); the `try/catch` around it
becomes the `match`.  The FAQ Agent first consults `faq_lookup_tool` and
returns its answer without any model call unless the tool produced the
generic clarifying prompt. -/
def agent_respond (agentName : String) (llm : String → Except Unit String)
    (userMessage : String) : AgentResult :=
  if agentName = "FAQ Agent" ∧ faq_lookup_tool userMessage ≠ genericFaqPrompt then
    { reply := faq_lookup_tool userMessage, llmCalled := false }
  else
    match llm (builtPrompt agentName userMessage) with
    | .ok text => { reply := text, llmCalled := true }
    | .error _ => { reply := apologyReply, llmCalled := true }

end ApiChat

namespace AppApiChat

/-! Embedding of `ui/app/api/chat/route.ts` (the UK Sports route with
validation, backend call and fallback table). -/

/-- The `message` field of the request body as the handler sees it after
`await request.json()`: missing or `null` (falsy), present but not a string
(a truthy non-string value), or a string. -/
inductive ReqMessage where
  | absent
  | notString
  | str (s : String)
  deriving DecidableEq

/-- JavaScript truthiness test `!message` on the message field: true for a
missing/null field and for the empty string. -/
def messageFalsy : ReqMessage → Bool
  | .absent => true
  | .notString => false
  | .str s => s = ""

/-- JavaScript `typeof message !== \x27string\x27`, negated: true when the
field holds a string. -/
def messageIsString : ReqMessage → Bool
  | .str _ => true
  | _ => false

/-- The fallback response table (`FALLBACK_RESPONSES` in the source), in
object-literal insertion order, which is the order `Object.entries`
iterates string keys. -/
def FALLBACK_RESPONSES : List (String × String) :=
  [("premier league", "I can help with Premier League information! However, the full backend system is not currently available. Please ensure your Python backend is running on port 8000."),
   ("championship", "I can help with Championship football! However, the full backend system is not currently available. Please ensure your Python backend is running on port 8000."),
   ("boxing", "I can help with boxing information! However, the full backend system is not currently available. Please ensure your Python backend is running on port 8000."),
   ("transfer", "I can help with transfer news! However, the full backend system is not currently available. Please ensure your Python backend is running on port 8000."),
   ("default", "Hello! I\x27m your UK Sports assistant. I can help with Premier League, Championship, Boxing, and Sports News. However, the full backend system is not currently available. Please ensure your Python backend is running on port 8000.")]

/-- The `default` entry of the table. -/
def fallbackDefault : String :=
  "Hello! I\x27m your UK Sports assistant. I can help with Premier League, Championship, Boxing, and Sports News. However, the full backend system is not currently available. Please ensure your Python backend is running on port 8000."

/-- Function `getFallbackResponse` from the source: the first non-`default` table
entry whose key occurs in the lowercased message, else the `default`
entry. -/
def getFallbackResponse (message : String) : String :=
  let messageLower := lowerStr message
  match FALLBACK_RESPONSES.find?
      (fun kv => kv.1 ≠ "default" && strContains messageLower kv.1) with
  | some kv => kv.2
  | none => fallbackDefault

/-- One chat message of a response body. -/
structure ChatMessage where
  content : String
  agent : String
  timestamp : Nat
  deriving DecidableEq

/-- One event of a response body. -/
structure ChatEvent where
  id : String
  type : String
  agent : String
  content : String
  timestamp : Nat
  deriving DecidableEq

/-- One agent entry of a response body. -/
structure AgentInfo where
  name : String
  description : String
  handoffTargets : List String
  tools : List String
  inputGuardrails : List String
  deriving DecidableEq

/-- The context slots of the fallback response body. -/
structure ContextSnapshot where
  user_name : Option String
  favorite_team : Option String
  favorite_sport : Option String
  last_query_type : Option String
  user_id : Option String
  deriving DecidableEq

/-- A chat response body. -/
structure ChatResponse where
  conversation_id : String
  current_agent : String
  context : ContextSnapshot
  events : List ChatEvent
  agents : List AgentInfo
  guardrails : List String
  messages : List ChatMessage
  deriving DecidableEq

/-- Outcome of the `fetch` to the Python backend: a JSON body with an OK
status, a non-OK status, or a thrown error (network failure or the 10 s
timeout). -/
inductive BackendOutcome where
  | ok (resp : ChatResponse)
  | notOk (status : Nat)
  | failed
  deriving DecidableEq

/-- True when the backend call did not deliver an OK response. -/
def backendUnavailable : BackendOutcome → Bool
  | .ok _ => false
  | _ => true

/-- What the handler replies: a JSON body with an HTTP status, or an error
body with an HTTP status. -/
inductive HandlerResult where
  | json (status : Nat) (resp : ChatResponse)
  | errorJson (status : Nat) (error : String)
  deriving DecidableEq

/-- A run of the handler: its result, plus whether the backend `fetch` was
attempted. -/
structure HandlerRun where
  result : HandlerResult
  backendCalled : Bool
  deriving DecidableEq

/-- The agents list of the fallback response body. -/
def fallbackAgents : List AgentInfo :=
  [{ name := "Triage Agent", description := "Routes your questions to the right specialist",
     handoffTargets := [], tools := [], inputGuardrails := [] },
   { name := "Premier League Agent", description := "Premier League football expert",
     handoffTargets := [], tools := [], inputGuardrails := [] },
   { name := "Championship Agent", description := "Championship football expert",
     handoffTargets := [], tools := [], inputGuardrails := [] },
   { name := "Boxing Agent", description := "Boxing expert",
     handoffTargets := [], tools := [], inputGuardrails := [] },
   { name := "Sports News Agent", description := "Latest sports news and updates",
     handoffTargets := [], tools := [], inputGuardrails := [] }]

/-- The fallback response body built when the backend is unavailable.
`now` stands for `Date.now()` at this point of the run. -/
def fallbackChatResponse (message : String) (conversation_id : Option String)
    (now : Nat) : ChatResponse :=
  { conversation_id := conversation_id.getD ("fallback-" ++ toString now)
    current_agent := "triage"
    context := { user_name := none, favorite_team := none, favorite_sport := none,
                 last_query_type := none, user_id := none }
    events := [{ id := "event-" ++ toString now, type := "agent_selected",
                 agent := "triage", content := "Fallback mode activated", timestamp := now }]
    agents := fallbackAgents
    guardrails := []
    messages := [{ content := getFallbackResponse message, agent := "triage", timestamp := now }] }

/-- The `POST` handler of `ui/app/api/chat/route.ts`.  Validation runs
first: a falsy or non-string message is rejected with a 400, then a message
over 1000 characters is rejected with a 400.  Only then is the backend
`fetch` attempted (`backendCalled`); an OK backend response is passed
through, anything else falls back to `fallbackChatResponse`. -/
def POST (message : ReqMessage) (conversation_id : Option String)
    (backend : BackendOutcome) (now : Nat) : HandlerRun :=
  if messageFalsy message || !(messageIsString message) then
    { result := .errorJson 400 "Message is required and must be a string",
      backendCalled := false }
  else
    match message with
    | .str s =>
      if s.length > 1000 then
        { result := .errorJson 400 "Message too long (max 1000 characters)",
          backendCalled := false }
      else
        match backend with
        | .ok resp => { result := .json 200 resp, backendCalled := true }
        | _ => { result := .json 200 (fallbackChatResponse s conversation_id now),
                 backendCalled := true }
    | _ =>
      { result := .errorJson 400 "Message is required and must be a string",
        backendCalled := false }

/-- HTTP status of a handler result. -/
def resultStatus : HandlerResult → Nat
  | .json status _ => status
  | .errorJson status _ => status

/-- True when a handler result is an error body (no chat response). -/
def isErrorResult : HandlerResult → Bool
  | .json _ _ => false
  | .errorJson _ _ => true

end AppApiChat

namespace Grounding

/-! Modelled from the spec: the Grounding Engine of spec section 4.2 lives in
the Python backend, which is not part of this repository snapshot (the
repository holds only its UI callers and the README describing it).  The
definitions below follow the spec text for the two-phase grounding
decision. -/

/-- A single search result used in grounded synthesis. -/
structure WebSource where
  title : String
  snippet : String
  link : String
  deriving DecidableEq

/-- The grounding decision attached to an assistant turn. -/
structure GroundingDecision where
  triggered : Bool
  reason : String
  query : Option String
  sources : List WebSource
  deriving DecidableEq

/-- Modelled from the spec: the fixed set of phrase patterns whose presence
in the draft reply counts as an explicit admission of insufficient
knowledge (spec section 4.2, Phase A). -/
def ADMISSION_PATTERNS : List String :=
  ["i don\x27t have information about",
   "as of my knowledge cutoff"]

/-- Modelled from the spec: Phase A of the grounding decision — the draft
reply contains one of the fixed admission phrases. -/
def containsAdmission (draftReply : String) : Bool :=
  ADMISSION_PATTERNS.any (fun p => strContains (lowerStr draftReply) p)

/-- The time-sensitive terms of the retired heuristic (README: 2025, 2026,
"latest", "recent"), used only to state that they do not trigger
grounding. -/
def TIME_SENSITIVE_TERMS : List String :=
  ["2025", "2026", "latest", "recent"]

/-- True when the text contains one of the time-sensitive terms. -/
def timeSensitive (text : String) : Bool :=
  TIME_SENSITIVE_TERMS.any (fun p => strContains (lowerStr text) p)

/-- Outcome of the Search Client call: a failure (after its retries) or an
ordered result list. -/
inductive SearchOutcome where
  | failed
  | results (rs : List WebSource)
  deriving DecidableEq

/-- Modelled from the spec: the fixed source-priority domains (official
domain sources rank first; the dev log names the official club and league
sites). -/
def OFFICIAL_DOMAINS : List String :=
  ["premierleague.com", "chelseafc.com", "bbc.co.uk"]

/-- True when a source links to an official domain. -/
def isOfficial (s : WebSource) : Bool :=
  OFFICIAL_DOMAINS.any (fun d => strContains s.link d)

/-- Modelled from the spec: rank by the fixed source-priority list —
official domain sources first, general sources after, each group keeping
its order. -/
def rankSources (rs : List WebSource) : List WebSource :=
  rs.filter isOfficial ++ rs.filter (fun s => !(isOfficial s))

/-- Modelled from the spec: deduplicate by normalized (lowercased) link,
keeping first occurrences. -/
def dedupByLink (rs : List WebSource) : List WebSource :=
  rs.foldl
    (fun acc s =>
      if acc.any (fun t => lowerStr t.link = lowerStr s.link) then acc
      else acc ++ [s])
    []

/-- The design constant N: at most this many sources are used. -/
def MAX_SOURCES : Nat := 5

/-- Compact presentation of one source: title, one-line snippet, link. -/
def formatSource (s : WebSource) : String :=
  "\n- " ++ s.title ++ ": " ++ s.snippet ++ " (" ++ s.link ++ ")"

/-- The short note appended when current information could not be
retrieved. -/
def unavailableNote : String :=
  "\n\n(Note: current information could not be retrieved right now.)"

/-- Modelled from the spec: synthesis keeps the stance of the original draft and
appends a compact presentation of the top results. -/
def synthesize (draft : String) (top : List WebSource) : String :=
  draft ++ "\n\nCurrent information from the web:"
    ++ String.join (top.map formatSource)

/-- Modelled from the spec: Phase B — on a failed search or zero results,
reason becomes `search_unavailable` and the draft is returned annotated;
otherwise the ranked, deduplicated top results are synthesized into the
final reply. -/
def groundPhaseB (draft query : String) (search : SearchOutcome) :
    String × GroundingDecision :=
  match search with
  | .failed =>
      (draft ++ unavailableNote,
       { triggered := true, reason := "search_unavailable",
         query := some query, sources := [] })
  | .results [] =>
      (draft ++ unavailableNote,
       { triggered := true, reason := "search_unavailable",
         query := some query, sources := [] })
  | .results (r :: rs) =>
      let top := (dedupByLink (rankSources (r :: rs))).take MAX_SOURCES
      (synthesize draft top,
       { triggered := true, reason := "insufficient_knowledge",
         query := some query, sources := top })

/-- Modelled from the spec: the search query is built from the admission
context and the recent topic of the conversation; here the message of the user stands
for the recent topic. -/
def buildQuery (userText _draftReply : String) : String :=
  userText

/-- Modelled from the spec: the whole grounding step of one turn.  Phase A
inspects only the draft reply; the message of the user enters only the query
built after triggering. -/
def ground (userText draftReply : String) (search : SearchOutcome) :
    String × GroundingDecision :=
  if containsAdmission draftReply then
    groundPhaseB draftReply (buildQuery userText draftReply) search
  else
    (draftReply,
     { triggered := false, reason := "no_admission", query := none, sources := [] })

end Grounding

namespace Orchestrator

/-! Modelled from the spec: the Orchestrator contract `handleTurn` of spec
section 4.1 lives in the Python backend, absent from this repository
snapshot; only the id-handling needed by the claims is modelled. -/

/-- Server-fault errors of the turn handler. -/
inductive TurnError where
  | unknownConversation
  deriving DecidableEq

/-- A stored conversation (the slots the modelled claims touch). -/
structure Conversation where
  id : String
  currentAgent : String
  history : List String
  deriving DecidableEq

/-- The result of a successful turn. -/
structure TurnResult where
  conversationId : String
  reply : String
  deriving DecidableEq

/-- Lookup of a conversation by id in the session store. -/
def lookupConv (store : List Conversation) (id : String) : Option Conversation :=
  store.find? (fun c => c.id = id)

/-- Modelled from the spec: `handleTurn` fails with `UnknownConversation`
when an id is supplied but not found; a fresh conversation is used only
when no id is supplied.  Producing the reply is abstracted as the
`respond` argument. -/
def handleTurn (store : List Conversation) (fresh : Conversation)
    (respond : Conversation → String → String)
    (conversation_id : Option String) (userText : String) :
    Except TurnError TurnResult :=
  match conversation_id with
  | some id =>
      match lookupConv store id with
      | some conv => .ok { conversationId := conv.id, reply := respond conv userText }
      | none => .error .unknownConversation
  | none => .ok { conversationId := fresh.id, reply := respond fresh userText }

end Orchestrator

/-- From the triage agent, routing always lands on one of the four
specialists. -/
theorem route_from_triage_cases (userMessage : String) :
    ApiChat.route_to_agent userMessage "Triage Agent" = "Seat Booking Agent"
    ∨ ApiChat.route_to_agent userMessage "Triage Agent" = "Flight Status Agent"
    ∨ ApiChat.route_to_agent userMessage "Triage Agent" = "Cancellation Agent"
    ∨ ApiChat.route_to_agent userMessage "Triage Agent" = "FAQ Agent" := by
  unfold ApiChat.route_to_agent
  rw [if_pos rfl]
  dsimp only
  split
  · exact Or.inl rfl
  split
  · exact Or.inr (Or.inl rfl)
  split
  · exact Or.inr (Or.inr (Or.inl rfl))
  split
  · exact Or.inr (Or.inr (Or.inr rfl))
  · exact Or.inr (Or.inr (Or.inr rfl))

/-- From any non-triage agent, routing either hands back to the triage
agent or stays put. -/
theorem route_from_specialist_cases (userMessage currentAgent : String)
    (h : currentAgent ≠ "Triage Agent") :
    ApiChat.route_to_agent userMessage currentAgent = "Triage Agent"
    ∨ ApiChat.route_to_agent userMessage currentAgent = currentAgent := by
  unfold ApiChat.route_to_agent
  rw [if_neg h]
  split
  · exact Or.inl rfl
  · exact Or.inr rfl

/-- C1: grounding is triggered if and only if the draft reply contains one
of the fixed knowledge-insufficiency admission phrases; time-sensitive
wording appearing only in the message of the user never triggers it. -/
theorem C1_grounding_iff_draft_admission :
    ∀ (userText draftReply : String) (search : Grounding.SearchOutcome),
      (Grounding.ground userText draftReply search).2.triggered
          = Grounding.containsAdmission draftReply
      ∧ (Grounding.timeSensitive userText = true →
           Grounding.containsAdmission draftReply = false →
           (Grounding.ground userText draftReply search).2.triggered = false) := by
  intro u d s
  have hB : ∀ q, (Grounding.groundPhaseB d q s).2.triggered = true := by
    intro q
    unfold Grounding.groundPhaseB
    rcases s with _ | rs
    · rfl
    · rcases rs with _ | ⟨r, rs⟩ <;> rfl
  constructor
  · unfold Grounding.ground
    by_cases h : Grounding.containsAdmission d = true
    · rw [if_pos h, hB, h]
    · rw [if_neg h]
      simp only [Bool.not_eq_true] at h
      exact h.symm
  · intro _ hadm
    unfold Grounding.ground
    rw [if_neg (by simp [hadm])]

/-- C1 witness: a user question full of time-sensitive terms with a
confident draft reply does not trigger grounding. -/
theorem C1_grounding_iff_draft_admission_witness :
    (Grounding.ground "What are the latest fixtures for 2025?"
        "Chelsea play Arsenal on Saturday." Grounding.SearchOutcome.failed).2.triggered
      = false :=
  (C1_grounding_iff_draft_admission "What are the latest fixtures for 2025?"
      "Chelsea play Arsenal on Saturday." Grounding.SearchOutcome.failed).2
    (by decide) (by decide)

/-- C2: from a registered agent, routing lands on a registered agent; a
changed agent is in the declared handoff set of the source agent or is the
triage default; a non-triage agent can only stay or hand back to triage. -/
theorem C2_route_targets_declared_or_default :
    ∀ (userMessage currentAgent : String),
      currentAgent ∈ ApiChat.AGENT_LIST →
      ApiChat.route_to_agent userMessage currentAgent ∈ ApiChat.AGENT_LIST
      ∧ (ApiChat.route_to_agent userMessage currentAgent ≠ currentAgent →
           ApiChat.route_to_agent userMessage currentAgent
             ∈ ApiChat.declared_handoffs currentAgent
           ∨ ApiChat.route_to_agent userMessage currentAgent = "Triage Agent")
      ∧ (currentAgent ≠ "Triage Agent" →
           ApiChat.route_to_agent userMessage currentAgent = currentAgent
           ∨ ApiChat.route_to_agent userMessage currentAgent = "Triage Agent") := by
  intro msg agent hmem
  by_cases htri : agent = "Triage Agent"
  · subst htri
    rcases route_from_triage_cases msg with h | h | h | h <;> rw [h] <;>
      exact ⟨by decide, fun _ => Or.inl (by decide), fun hc => absurd rfl hc⟩
  · rcases route_from_specialist_cases msg agent htri with h | h
    · rw [h]
      exact ⟨by decide, fun _ => Or.inr rfl, fun _ => Or.inr rfl⟩
    · rw [h]
      exact ⟨hmem, fun hc => absurd rfl hc, fun _ => Or.inl rfl⟩

/-- C2 witness: instantiated at a seat-change message sent to the Seat
Booking Agent. -/
theorem C2_route_targets_declared_or_default_witness :
    ApiChat.route_to_agent "I need to change my seat" "Seat Booking Agent"
      ∈ ApiChat.AGENT_LIST :=
  (C2_route_targets_declared_or_default "I need to change my seat"
      "Seat Booking Agent" (by decide)).1

/-- C3 counterexample: on a message matching no topic rule, the triage
agent does not keep the conversation — routing moves it to the FAQ
Agent. -/
theorem C3_counterexample_no_match_leaves_triage :
    ApiChat.firstRuleTarget (lowerStr "hello") = none
    ∧ ApiChat.route_to_agent "hello" "Triage Agent" = "FAQ Agent"
    ∧ ApiChat.route_to_agent "hello" "Triage Agent" ≠ "Triage Agent" := by
  decide

/-- C3 (amended): from the triage agent, routing is first-match-wins over
the ordered topic-rule table on the lowercased message, and when no rule
matches it falls back to the FAQ Agent instead of remaining on the triage
agent. -/
theorem C3_triage_routing_first_match_with_faq_default :
    ∀ userMessage : String,
      ApiChat.route_to_agent userMessage "Triage Agent"
        = (ApiChat.firstRuleTarget (lowerStr userMessage)).getD "FAQ Agent" := by
  intro msg
  unfold ApiChat.route_to_agent ApiChat.firstRuleTarget ApiChat.TRIAGE_RULES
  rw [if_pos rfl]
  by_cases h1 : strContains (lowerStr msg) "seat" = true <;>
  by_cases h2 : strContains (lowerStr msg) "status" = true <;>
  by_cases h3 : strContains (lowerStr msg) "flight" = true <;>
  by_cases h4 : strContains (lowerStr msg) "cancel" = true <;>
  by_cases h5 : strContains (lowerStr msg) "faq" = true <;>
  by_cases h6 : strContains (lowerStr msg) "question" = true <;>
    simp [ApiChat.ruleMatches, List.find?, h1, h2, h3, h4, h5, h6]

/-- C4: the boot request (empty message, no conversation id) is not
accepted by the deployed handler: validation rejects it with a 400 before
the backend is consulted, contradicting the documented boot handshake that
the UI itself performs with an empty message. -/
theorem C4_boot_request_rejected_by_validation :
    (AppApiChat.POST (AppApiChat.ReqMessage.str "") none
        AppApiChat.BackendOutcome.failed 0).result
      = AppApiChat.HandlerResult.errorJson 400 "Message is required and must be a string"
    ∧ (AppApiChat.POST (AppApiChat.ReqMessage.str "") none
        AppApiChat.BackendOutcome.failed 0).backendCalled = false := by
  decide

/-- C5: a supplied conversation id that is not in the session store makes
the turn handler fail with UnknownConversation. -/
theorem C5_unknown_id_fails_with_unknown_conversation :
    ∀ (store : List Orchestrator.Conversation) (fresh : Orchestrator.Conversation)
      (respond : Orchestrator.Conversation → String → String)
      (id userText : String),
      (∀ c ∈ store, c.id ≠ id) →
      Orchestrator.handleTurn store fresh respond (some id) userText
        = Except.error Orchestrator.TurnError.unknownConversation := by
  intro store fresh respond id userText h
  have hlook : Orchestrator.lookupConv store id = none := by
    unfold Orchestrator.lookupConv
    rw [List.find?_eq_none]
    intro c hc
    simp [h c hc]
  simp [Orchestrator.handleTurn, hlook]

/-- C5 witness: a store holding only conversation `conv-1` rejects a turn
for `conv-9`. -/
theorem C5_unknown_id_fails_with_unknown_conversation_witness :
    Orchestrator.handleTurn
        [{ id := "conv-1", currentAgent := "Triage Agent", history := [] }]
        { id := "conv-2", currentAgent := "Triage Agent", history := [] }
        (fun _ t => t) (some "conv-9") "hello"
      = Except.error Orchestrator.TurnError.unknownConversation :=
  C5_unknown_id_fails_with_unknown_conversation
    [{ id := "conv-1", currentAgent := "Triage Agent", history := [] }]
    { id := "conv-2", currentAgent := "Triage Agent", history := [] }
    (fun _ t => t) "conv-9" "hello" (by decide)

/-- C6: when grounding is triggered and the search fails or returns zero
results, the reason of the decision is `search_unavailable` and the final reply
is the original draft annotated with the short unavailability note — the
grounding step still returns a reply rather than failing the turn. -/
theorem C6_search_unavailable_annotates_draft :
    ∀ (userText draftReply : String) (search : Grounding.SearchOutcome),
      Grounding.containsAdmission draftReply = true →
      (search = Grounding.SearchOutcome.failed
        ∨ search = Grounding.SearchOutcome.results []) →
      (Grounding.ground userText draftReply search).2.reason = "search_unavailable"
      ∧ (Grounding.ground userText draftReply search).1
          = draftReply ++ Grounding.unavailableNote := by
  intro u d s hadm hs
  unfold Grounding.ground
  rw [if_pos hadm]
  rcases hs with rfl | rfl <;> exact ⟨rfl, rfl⟩

/-- C6 witness: an admission-bearing draft with a failed search yields the
`search_unavailable` reason and the annotated draft. -/
theorem C6_search_unavailable_annotates_draft_witness :
    (Grounding.ground "What are the next fixtures?"
        "I don\x27t have information about future fixtures."
        Grounding.SearchOutcome.failed).2.reason = "search_unavailable"
    ∧ (Grounding.ground "What are the next fixtures?"
        "I don\x27t have information about future fixtures."
        Grounding.SearchOutcome.failed).1
      = "I don\x27t have information about future fixtures." ++ Grounding.unavailableNote :=
  C6_search_unavailable_annotates_draft "What are the next fixtures?"
    "I don\x27t have information about future fixtures."
    Grounding.SearchOutcome.failed (by decide) (Or.inl rfl)

/-- C7: with a failing language-model call, every agent reply that consults
the model is the fixed apology, and the function always returns a reply —
either the apology or the answer of the FAQ tool — never an exception. -/
theorem C7_llm_failure_degrades_to_apology :
    ∀ (agentName userMessage : String),
      ((ApiChat.agent_respond agentName (fun _ => Except.error ()) userMessage).llmCalled = true →
         (ApiChat.agent_respond agentName (fun _ => Except.error ()) userMessage).reply
           = ApiChat.apologyReply)
      ∧ ((ApiChat.agent_respond agentName (fun _ => Except.error ()) userMessage).reply
           = ApiChat.apologyReply
         ∨ (ApiChat.agent_respond agentName (fun _ => Except.error ()) userMessage).reply
           = ApiChat.faq_lookup_tool userMessage) := by
  intro a m
  unfold ApiChat.agent_respond
  split
  · exact ⟨fun hc => by simp at hc, Or.inr rfl⟩
  · exact ⟨fun _ => rfl, Or.inl rfl⟩

/-- C7 witness: the triage agent with a failing model call replies with the
fixed apology. -/
theorem C7_llm_failure_degrades_to_apology_witness :
    (ApiChat.agent_respond "Triage Agent" (fun _ => Except.error ()) "hello").reply
      = ApiChat.apologyReply :=
  (C7_llm_failure_degrades_to_apology "Triage Agent" "hello").1 (by decide)

/-- C8: a non-string or over-long message is rejected with a 400 error
body, and the backend call is never attempted. -/
theorem C8_invalid_message_rejected_before_backend :
    ∀ (message : AppApiChat.ReqMessage) (cid : Option String)
      (backend : AppApiChat.BackendOutcome) (now : Nat),
      (AppApiChat.messageIsString message = false
        ∨ (∃ s, message = AppApiChat.ReqMessage.str s ∧ 1000 < s.length)) →
      AppApiChat.isErrorResult (AppApiChat.POST message cid backend now).result = true
      ∧ AppApiChat.resultStatus (AppApiChat.POST message cid backend now).result = 400
      ∧ (AppApiChat.POST message cid backend now).backendCalled = false := by
  intro m cid backend now h
  cases m with
  | absent => exact ⟨rfl, rfl, rfl⟩
  | notString => exact ⟨rfl, rfl, rfl⟩
  | str s =>
    rcases h with h | ⟨t, ht, hlen⟩
    · simp [AppApiChat.messageIsString] at h
    · injection ht with ht'
      subst ht'
      have hne : ¬ (s = "") := by
        intro h0
        subst h0
        exact absurd hlen (by decide)
      refine ⟨?_, ?_, ?_⟩ <;>
        simp [AppApiChat.POST, AppApiChat.messageFalsy, AppApiChat.messageIsString,
              hne, hlen, AppApiChat.isErrorResult, AppApiChat.resultStatus]

/-- C8 witness: a non-string message body is rejected with a 400 and no
backend call. -/
theorem C8_invalid_message_rejected_before_backend_witness :
    AppApiChat.isErrorResult (AppApiChat.POST AppApiChat.ReqMessage.notString none
        AppApiChat.BackendOutcome.failed 0).result = true
    ∧ AppApiChat.resultStatus (AppApiChat.POST AppApiChat.ReqMessage.notString none
        AppApiChat.BackendOutcome.failed 0).result = 400
    ∧ (AppApiChat.POST AppApiChat.ReqMessage.notString none
        AppApiChat.BackendOutcome.failed 0).backendCalled = false :=
  C8_invalid_message_rejected_before_backend AppApiChat.ReqMessage.notString none
    AppApiChat.BackendOutcome.failed 0 (Or.inl rfl)

/-- C9: on any valid message, when the backend call fails or returns a
non-OK status, the handler still answers 200 with the fallback body:
current agent `triage`, a non-empty agents list, exactly one message chosen
by the fallback keyword table, and a conversation id (the supplied one, or
a freshly minted `fallback-` id). -/
theorem C9_backend_failure_yields_wellformed_fallback :
    ∀ (s : String) (cid : Option String) (backend : AppApiChat.BackendOutcome) (now : Nat),
      s ≠ "" → s.length ≤ 1000 →
      AppApiChat.backendUnavailable backend = true →
      (AppApiChat.POST (AppApiChat.ReqMessage.str s) cid backend now).result
        = AppApiChat.HandlerResult.json 200 (AppApiChat.fallbackChatResponse s cid now)
      ∧ (AppApiChat.fallbackChatResponse s cid now).current_agent = "triage"
      ∧ (AppApiChat.fallbackChatResponse s cid now).agents ≠ []
      ∧ (AppApiChat.fallbackChatResponse s cid now).messages
          = [{ content := AppApiChat.getFallbackResponse s, agent := "triage", timestamp := now }]
      ∧ (AppApiChat.fallbackChatResponse s cid now).conversation_id
          = cid.getD ("fallback-" ++ toString now) := by
  intro s cid backend now hne hlen hbk
  have hlen2 : ¬ (s.length > 1000) := by omega
  refine ⟨?_, rfl, by simp [AppApiChat.fallbackChatResponse, AppApiChat.fallbackAgents], rfl, rfl⟩
  cases backend with
  | ok resp => simp [AppApiChat.backendUnavailable] at hbk
  | notOk st =>
      simp [AppApiChat.POST, AppApiChat.messageFalsy, AppApiChat.messageIsString, hne, hlen2]
  | failed =>
      simp [AppApiChat.POST, AppApiChat.messageFalsy, AppApiChat.messageIsString, hne, hlen2]

/-- C9 witness: a Premier League question with the backend down gets the
200 fallback body. -/
theorem C9_backend_failure_yields_wellformed_fallback_witness :
    (AppApiChat.POST (AppApiChat.ReqMessage.str "Who won the premier league?") none
        AppApiChat.BackendOutcome.failed 7).result
      = AppApiChat.HandlerResult.json 200
          (AppApiChat.fallbackChatResponse "Who won the premier league?" none 7) :=
  (C9_backend_failure_yields_wellformed_fallback "Who won the premier league?" none
    AppApiChat.BackendOutcome.failed 7 (by decide) (by decide) rfl).1

/-- C10: the FAQ Agent answers straight from the FAQ lookup tool whenever
the answer of the tool differs from the generic clarifying prompt (no model
call), and consults the model exactly when the tool yields the generic
prompt. -/
theorem C10_faq_agent_uses_tool_before_llm :
    ∀ (userMessage : String) (llm : String → Except Unit String),
      (ApiChat.faq_lookup_tool userMessage ≠ ApiChat.genericFaqPrompt →
         ApiChat.agent_respond "FAQ Agent" llm userMessage
           = { reply := ApiChat.faq_lookup_tool userMessage, llmCalled := false })
      ∧ (ApiChat.faq_lookup_tool userMessage = ApiChat.genericFaqPrompt →
         (ApiChat.agent_respond "FAQ Agent" llm userMessage).llmCalled = true) := by
  intro m llm
  constructor
  · intro h
    unfold ApiChat.agent_respond
    rw [if_pos ⟨rfl, h⟩]
  · intro h
    unfold ApiChat.agent_respond
    rw [if_neg (fun hc => hc.2 h)]
    rcases hE : llm (ApiChat.builtPrompt "FAQ Agent" m) with e | text <;> rfl

/-- C10 witness: a wifi question is answered by the FAQ tool without any
model call, even with a failing model. -/
theorem C10_faq_agent_uses_tool_before_llm_witness :
    ApiChat.agent_respond "FAQ Agent" (fun _ => Except.error ()) "Is there wifi on the plane?"
      = { reply := ApiChat.faq_lookup_tool "Is there wifi on the plane?", llmCalled := false } :=
  (C10_faq_agent_uses_tool_before_llm "Is there wifi on the plane?"
    (fun _ => Except.error ())).1 (by decide)

example : ApiChat.faq_lookup_tool "What is the baggage fee?" =
    "Overweight bag fee is $75. Additional checked bags are $35 each." := by decide

example : ApiChat.route_to_agent "I want to cancel my flight" "Triage Agent" =
    "Flight Status Agent" := by decide

example : ApiChat.route_to_agent "hello" "Triage Agent" = "FAQ Agent" := by decide

example : ApiChat.route_to_agent "hello" "Seat Booking Agent" = "Seat Booking Agent" := by decide
